import Mathlib

/-!
Shallow embedding of the `pybullet_industrial` / `wbk_sim` convenience layer:
ray-based material deposition (extruder, paint/plastic particles), robot-base
joint bookkeeping and tool-path utilities.  Engine-provided services
(ray-test batches, pose queries, debug-line creation) are modelled as
parameters or explicit call records; the repository's own orchestration code
is translated function by function.
-/

namespace PybulletIndustrial

/-- A pybullet ray-cast result as consumed by this repository:
`[0]` the unique id of the hit object (`-1` on a miss), `[1]` the hit link
index, `[2]` the hit fraction, `[3]` the hit position in world coordinates. -/
structure RayCastResult where
  objectId : ℤ
  linkIndex : ℤ
  hitFraction : ℝ
  hitPosition : Fin 3 → ℝ

/-! ## `pybullet_industrial/extruder.py` — `Extruder.extrude`

The method fetches the tool pose, calls `cast_rays` (inherited from
`RayCaster`), and then loops over the engine results, building the particle
list.  The loop is embedded below, parametrised by the result list the
engine produced and by the material constructor stored in
`self.properties['material']`. -/

/-- The particle-spawning loop of `Extruder.extrude`:

    particle_list = []
    for ray_intersection in ray_cast_results:
        if ray_intersection[0] != -1:
            particle = self.properties['material'](...)
            particle_list.append(particle)
    return particle_list

`material` stands for the constructor call
`self.properties['material'](ray_intersection, material_properties)`. -/
def extrude {Particle : Type} (material : RayCastResult → Particle)
    (ray_cast_results : List RayCastResult) : List Particle :=
  ray_cast_results.foldl
    (fun particle_list ray_intersection =>
      if ray_intersection.objectId ≠ -1
      then particle_list ++ [material ray_intersection]
      else particle_list) []

/-! ## `pybullet_industrial/toolpath.py` — `ToolPath`

Positions are a 3×n array stored row-wise, orientations a 4×n array,
tool activations a length-n array.  `translate` adds each component of the
vector to the corresponding coordinate row; `__len__` is the length of the
first position row. -/

structure ToolPath where
  positions : Fin 3 → List ℚ
  orientations : Fin 4 → List ℚ
  tool_activations : List ℚ

/-- `ToolPath.__len__`: `len(self.positions[0])`. -/
def ToolPath.len (tp : ToolPath) : ℕ := (tp.positions 0).length

/-- `ToolPath.translate`: `self.positions[d] += vector[d]` for `d = 0, 1, 2`
(numpy broadcasts the scalar over the row). -/
def ToolPath.translate (tp : ToolPath) (vector : Fin 3 → ℚ) : ToolPath :=
  { tp with positions := fun d => (tp.positions d).map (fun x => x + vector d) }

/-! ## `pybullet_industrial/material.py` — removal bookkeeping

A minimal engine scene for the removal claims: the set of multibody ids and
the set of user-debug-item ids currently alive.  `p.removeBody` and
`p.removeUserDebugItem` erase one id each. -/

structure SimScene where
  bodies : Finset ℤ
  debugItems : Finset ℤ

/-- `p.removeBody(id)`. -/
def removeBody (scene : SimScene) (id : ℤ) : SimScene :=
  { scene with bodies := scene.bodies.erase id }

/-- `p.removeUserDebugItem(id)`. -/
def removeUserDebugItem (scene : SimScene) (id : ℤ) : SimScene :=
  { scene with debugItems := scene.debugItems.erase id }

/-- `Plastic.remove`: `p.removeBody(self.particle_id)`. -/
def Plastic_remove (particle_id : ℤ) (scene : SimScene) : SimScene :=
  removeBody scene particle_id

/-- `Paint.remove`: `[p.removeUserDebugItem(id) for id in self.particle_ids]`. -/
def Paint_remove (particle_ids : List ℤ) (scene : SimScene) : SimScene :=
  particle_ids.foldl removeUserDebugItem scene

/-! ## `wbk_sim/robot_base.py` — `RobotBase`

The engine reports, per joint, a name, a joint type, and lower/upper limits
(`p.getJointInfo` fields 1, 2, 8, 9); numeric values are modelled as `ℚ`
(floats are dyadic rationals).  `RobotBase.__init__` stores limits in float
arrays, writing `-np.inf` / `np.inf` for joints whose URDF upper limit is
below the lower one, so limits live in the reals extended by two
infinities. -/

/-- A float extended with `-np.inf` and `np.inf`, as stored in the
`_lower_joint_limit` / `_upper_joint_limit` arrays. -/
inductive XReal where
  | negInf : XReal
  | fin : ℚ → XReal
  | posInf : XReal
deriving DecidableEq

/-- IEEE comparison `a <= b` on the extended values. -/
def XReal.ble : XReal → XReal → Bool
  | .negInf, _ => true
  | _, .posInf => true
  | .fin a, .fin b => decide (a ≤ b)
  | _, _ => false

/-- IEEE comparison `a < b` on the extended values. -/
def XReal.blt : XReal → XReal → Bool
  | .negInf, .negInf => false
  | .negInf, _ => true
  | .fin _, .negInf => false
  | .fin a, .fin b => decide (a < b)
  | .fin _, .posInf => true
  | .posInf, _ => false

instance : LE XReal := ⟨fun a b => XReal.ble a b = true⟩

instance (a b : XReal) : Decidable (a ≤ b) :=
  inferInstanceAs (Decidable (XReal.ble a b = true))

/-- The per-joint data `RobotBase.__init__` reads from `p.getJointInfo`:
`[1]` the joint name, `[2]` the joint type, `[8]` the lower limit,
`[9]` the upper limit. -/
structure JointInfo where
  name : String
  jointType : ℕ
  lowerLimit : ℚ
  upperLimit : ℚ
deriving DecidableEq

instance : Inhabited JointInfo := ⟨⟨"", 0, 0, 0⟩⟩

/-- `p.JOINT_FIXED` (pybullet constant). -/
def JOINT_FIXED : ℕ := 4

/-- The limit pair stored for one joint by `RobotBase.__init__`:

    lower_limit = p.getJointInfo(...)[8]
    upper_limit = p.getJointInfo(...)[9]
    if upper_limit < lower_limit:
        lower_limit = -np.inf
        upper_limit = np.inf

-/
def joint_limits (info : JointInfo) : XReal × XReal :=
  if info.upperLimit < info.lowerLimit then (XReal.negInf, XReal.posInf)
  else (XReal.fin info.lowerLimit, XReal.fin info.upperLimit)

/-- The state of a `RobotBase` object after `__init__`, built from the joint
infos the engine reports for the loaded URDF. -/
structure RobotBase where
  jointInfos : List JointInfo
  joint_state_shape_keys : List String
  joint_name_to_index : String → Option ℕ
  lower_joint_limit : List XReal
  upper_joint_limit : List XReal
  max_joint_force : List ℚ

/-- The `_joint_name_to_index` dictionary: built joint by joint in order, a
later joint with the same name overwriting an earlier entry. -/
def joint_name_to_index_of (urdf : List JointInfo) (n : String) : Option ℕ :=
  urdf.enum.foldl
    (fun acc ji => if ji.2.name = n then some ji.1 else acc) none

/-- `RobotBase.__init__`: records the joint infos, the keys of
`get_joint_state()` (the names of the non-fixed joints, cf.
`if p.getJointInfo(...)[2] is not p.JOINT_FIXED`), the name-to-index
dictionary, the limit arrays, and `max_joint_force = 1000*np.ones(n)`. -/
def robot_base_init (urdf : List JointInfo) : RobotBase :=
  { jointInfos := urdf
    joint_state_shape_keys :=
      (urdf.filter (fun info => info.jointType ≠ JOINT_FIXED)).map JointInfo.name
    joint_name_to_index := joint_name_to_index_of urdf
    lower_joint_limit := urdf.map (fun info => (joint_limits info).1)
    upper_joint_limit := urdf.map (fun info => (joint_limits info).2)
    max_joint_force := urdf.map (fun _ => 1000) }

/-- The Python exceptions `set_joint_position` can raise. -/
inductive PyErr where
  | keyError : PyErr
  | valueError : PyErr
deriving DecidableEq

/-- One `p.setJointMotorControl2(self.urdf, joint_number, p.POSITION_CONTROL,
force=..., targetPosition=...)` call. -/
structure MotorCommand where
  jointNumber : ℕ
  force : ℚ
  targetPosition : ℚ
deriving DecidableEq

/-- The body of the `for joint, joint_position in target.items()` loop of
`set_joint_position`: commands issued so far are kept when an exception
aborts the loop. -/
def run_joint_targets (robot : RobotBase) :
    List (String × ℚ) → List MotorCommand × Option PyErr
  | [] => ([], none)
  | (joint, joint_position) :: rest =>
    match robot.joint_name_to_index joint with
    | none => ([], some PyErr.keyError)
    | some joint_number =>
      let lower_limit := robot.lower_joint_limit.getD joint_number XReal.negInf
      let upper_limit := robot.upper_joint_limit.getD joint_number XReal.posInf
      if XReal.blt upper_limit (XReal.fin joint_position)
          || XReal.blt (XReal.fin joint_position) lower_limit then
        ([], some PyErr.valueError)
      else
        let cmd : MotorCommand :=
          ⟨joint_number, robot.max_joint_force.getD joint_number 0, joint_position⟩
        let rec_result := run_joint_targets robot rest
        (cmd :: rec_result.1, rec_result.2)

/-- `RobotBase.set_joint_position`: the guard
`all(key in self._joint_state_shape.keys() for key in target.keys())` runs
before any motor command; on failure a `KeyError` is raised and nothing is
sent.  The result is the list of issued motor commands together with the
exception, if any, that aborted the call. -/
def set_joint_position (robot : RobotBase) (target : List (String × ℚ)) :
    List MotorCommand × Option PyErr :=
  if target.all (fun kv => robot.joint_state_shape_keys.contains kv.1) then
    run_joint_targets robot target
  else
    ([], some PyErr.keyError)

/-- The names of all joints of the loaded robot. -/
def all_joint_names (urdf : List JointInfo) : List String :=
  urdf.map JointInfo.name

/-! ## Engine interface for the ray and material code

The examples and `material.py` call the physics engine for quaternion
conversion, batched ray tests, pose queries and debug-line creation.  These
services are modelled as the fields of an `Engine` value. -/

/-- A quaternion as a 4-vector `(x, y, z, w)`. -/
def Quat : Type := Fin 4 → ℝ

/-- The engine services used by `cast_rays` and `Paint.__init__`. -/
structure Engine where
  getMatrixFromQuaternion : Quat → Matrix (Fin 3) (Fin 3) ℝ
  rayTestBatch : List (Fin 3 → ℝ) → List (Fin 3 → ℝ) → List RayCastResult
  getBasePositionAndOrientation : ℤ → (Fin 3 → ℝ) × Quat
  getLinkState : ℤ → ℤ → (Fin 3 → ℝ) × Quat

noncomputable section

/-! ## `examples/extruder.py` — `sample_spherical` and `cast_rays`

`sample_spherical(npoints, opening_angle)` draws `phi` uniformly from
`[-pi, pi)` and `theta` uniformly from
`[-opening_angle/2, opening_angle/2)`; the i-th column of the returned
array depends only on the i-th draws, embedded below per point. -/

/-- One column of `sample_spherical`:
`(sin θ cos φ, sin θ sin φ, cos θ)` for the i-th random draws `θ`, `φ`. -/
def sample_spherical (theta phi : ℝ) : Fin 3 → ℝ :=
  ![Real.sin theta * Real.cos phi,
    Real.sin theta * Real.sin phi,
    Real.cos theta]

/-- The angle between a vector and the positive z axis:
`arccos (⟪v, e_z⟫ / ‖v‖)`. -/
def angle_to_z_axis (v : Fin 3 → ℝ) : ℝ :=
  Real.arccos (v 2 / Real.sqrt ((v 0) ^ 2 + (v 1) ^ 2 + (v 2) ^ 2))

/-- The `rayFrom` list built by the loop of `cast_rays`: the tool position,
`numRays` times. -/
def ray_from_list (position : Fin 3 → ℝ) (numRays : ℕ) : List (Fin 3 → ℝ) :=
  (List.range numRays).map (fun _ => position)

/-- The `rayTo` list built by the loop of `cast_rays`:
`position - rayLen * (rot_matrix @ ray_directions[:, i])`. -/
def ray_to_list (engine : Engine) (thetas phis : ℕ → ℝ) (position : Fin 3 → ℝ)
    (quat : Quat) (numRays : ℕ) (rayLen : ℝ) : List (Fin 3 → ℝ) :=
  (List.range numRays).map (fun i =>
    position -
      rayLen • (engine.getMatrixFromQuaternion quat).mulVec
        (sample_spherical (thetas i) (phis i)))

/-- `cast_rays(position, orientation, opening_angle, numRays, rayLen)`:
builds the two endpoint lists and hands them to `p.rayTestBatch` in one
call, returning its result.  `thetas`/`phis` are the random draws of
`sample_spherical(numRays, opening_angle)`; `opening_angle` only shapes
their distribution (`|thetas i| ≤ opening_angle/2`). -/
def cast_rays (engine : Engine) (thetas phis : ℕ → ℝ) (position : Fin 3 → ℝ)
    (quat : Quat) (numRays : ℕ) (rayLen : ℝ) : List RayCastResult :=
  engine.rayTestBatch (ray_from_list position numRays)
    (ray_to_list engine thetas phis position quat numRays rayLen)

/-! ## `pybullet_industrial/material.py` — particle creation

Material properties are a dictionary with keys `'particle size'` and
`'color'`; `set_material_properties` overwrites the defaults with the keys
present in the argument. -/

/-- The `self.properties` dictionary of a particle. -/
structure MaterialProperties where
  particleSize : ℝ
  color : List ℝ

/-- The `material_properties` argument: each key may be present or
absent. -/
structure MaterialPropertiesUpdate where
  particleSize : Option ℝ
  color : Option (List ℝ)

/-- `Particle.set_material_properties`: overwrite each default with the
value supplied for that key, if any. -/
def set_material_properties (defaults : MaterialProperties)
    (new_properties : MaterialPropertiesUpdate) : MaterialProperties :=
  { particleSize := new_properties.particleSize.getD defaults.particleSize
    color := new_properties.color.getD defaults.color }

/-- The default properties of `Plastic` and `Paint`:
`{'particle size': 0.3, 'color': [1, 0, 0, 1]}`. -/
def material_defaults : MaterialProperties :=
  { particleSize := 0.3, color := [1, 0, 0, 1] }

/-- A `p.createVisualShape(shapeType=p.GEOM_SPHERE, rgbaColor=..., radius=...)`
call. -/
structure SphereVisualShape where
  rgbaColor : List ℝ
  radius : ℝ

/-- A `p.createCollisionShape(shapeType=p.GEOM_SPHERE, radius=...)` call. -/
structure SphereCollisionShape where
  radius : ℝ

/-- A `p.createMultiBody` call, carrying the shapes its base indices refer
to (`none` for index `-1`). -/
structure MultiBodySpec where
  baseMass : ℝ
  baseCollisionShape : Option SphereCollisionShape
  baseVisualShape : Option SphereVisualShape
  basePosition : Fin 3 → ℝ

/-- A multibody with positive base mass is simulated dynamically; pybullet
treats a multibody with base mass `0` as fixed (static). -/
def isDynamic (body : MultiBodySpec) : Prop := 0 < body.baseMass

/-- `Plastic.__init__`: merges the material properties into the defaults and
spawns one multibody with `baseMass=0`, a visual sphere and a collision
sphere of radius `'particle size'`, at `ray_cast_result[3]`. -/
def Plastic_init (ray_cast_result : RayCastResult)
    (material_properties : MaterialPropertiesUpdate) : MultiBodySpec :=
  let props := set_material_properties material_defaults material_properties
  let particle_size := props.particleSize
  let color := props.color
  { baseMass := 0
    baseCollisionShape := some ⟨particle_size⟩
    baseVisualShape := some ⟨color, particle_size⟩
    basePosition := ray_cast_result.hitPosition }

/-- A `p.addUserDebugLine` call as issued by `Paint.__init__`. -/
structure DebugLineSpec where
  lineFrom : Fin 3 → ℝ
  lineTo : Fin 3 → ℝ
  lineColorRGB : List ℝ
  lineWidth : ℝ
  lifeTime : ℝ
  parentObjectUniqueId : ℤ
  parentLinkIndex : ℤ

/-- An engine-object creation call issued by a particle constructor. -/
inductive EngineCall where
  | createVisualShape : SphereVisualShape → EngineCall
  | createCollisionShape : SphereCollisionShape → EngineCall
  | createMultiBody : MultiBodySpec → EngineCall
  | addUserDebugLine : DebugLineSpec → EngineCall

/-- The engine calls of `Plastic.__init__`, in order. -/
def Plastic_engine_calls (ray_cast_result : RayCastResult)
    (material_properties : MaterialPropertiesUpdate) : List EngineCall :=
  let props := set_material_properties material_defaults material_properties
  [EngineCall.createVisualShape ⟨props.color, props.particleSize⟩,
   EngineCall.createCollisionShape ⟨props.particleSize⟩,
   EngineCall.createMultiBody (Plastic_init ray_cast_result material_properties)]

/-- The frame the paint decal is expressed in: the base frame of the struck
body when the hit link index is `-1`, otherwise the state of the struck
link. -/
def paint_target_frame (engine : Engine) (target_id target_link_id : ℤ) :
    (Fin 3 → ℝ) × Quat :=
  if target_link_id = -1 then engine.getBasePositionAndOrientation target_id
  else engine.getLinkState target_id target_link_id

/-- `adj_target_position = np.linalg.inv(rot_matrix) @ (hit_position -
target_position)`: the hit point expressed in the struck frame. -/
def adj_target_position (engine : Engine) (ray_cast_result : RayCastResult) :
    Fin 3 → ℝ :=
  let frame := paint_target_frame engine ray_cast_result.objectId
      ray_cast_result.linkIndex
  let rot_matrix := engine.getMatrixFromQuaternion frame.2
  rot_matrix⁻¹.mulVec (ray_cast_result.hitPosition - frame.1)

/-- `np.linspace(a, b, num)[i] = a + i*(b-a)/(num-1)`. -/
def np_linspace (a b : ℝ) (num : ℕ) (i : ℕ) : ℝ :=
  a + i * ((b - a) / ((num : ℝ) - 1))

/-- `steps = 3` in `Paint.__init__`. -/
def paint_steps : ℕ := 3

/-- `theta2 = np.linspace(-np.pi, 0, steps)`. -/
def paint_theta2 (i : ℕ) : ℝ := np_linspace (-Real.pi) 0 paint_steps i

/-- `phi2 = np.linspace(0, 5 * 2*np.pi, steps)`. -/
def paint_phi2 (i : ℕ) : ℝ := np_linspace 0 (5 * (2 * Real.pi)) paint_steps i

/-- The i-th spiral point of the paint decal:

    x_coord = particle_size * np.sin(theta2) * np.cos(phi2) + adj[0]
    y_coord = particle_size * np.sin(theta2) * np.sin(phi2) + adj[1]
    z_coord = particle_size * np.cos(theta2) + adj[2]

-/
def paint_path_point (particle_size : ℝ) (adj : Fin 3 → ℝ) (i : ℕ) :
    Fin 3 → ℝ :=
  ![particle_size * Real.sin (paint_theta2 i) * Real.cos (paint_phi2 i) + adj 0,
    particle_size * Real.sin (paint_theta2 i) * Real.sin (paint_phi2 i) + adj 1,
    particle_size * Real.cos (paint_theta2 i) + adj 2]

/-- The decal shape around its centre: spiral point i minus the centre,
a pure function of the particle size. -/
def paint_spiral_offset (particle_size : ℝ) (i : ℕ) : Fin 3 → ℝ :=
  ![particle_size * Real.sin (paint_theta2 i) * Real.cos (paint_phi2 i),
    particle_size * Real.sin (paint_theta2 i) * Real.sin (paint_phi2 i),
    particle_size * Real.cos (paint_theta2 i)]

/-- `Paint.__init__`: on a miss (`ray_cast_result[0] == -1`) no line is
created; on a hit, one debug line per `i in range(1, path_steps)` joining
consecutive spiral points, parented to the struck body and link. -/
def Paint_init (engine : Engine) (ray_cast_result : RayCastResult)
    (material_properties : MaterialPropertiesUpdate) : List DebugLineSpec :=
  let props := set_material_properties material_defaults material_properties
  let particle_size := props.particleSize
  let color := props.color
  if ray_cast_result.objectId = -1 then []
  else
    let adj := adj_target_position engine ray_cast_result
    let width := particle_size * 500
    (List.range' 1 (paint_steps - 1)).map (fun i =>
      { lineFrom := paint_path_point particle_size adj i
        lineTo := paint_path_point particle_size adj (i - 1)
        lineColorRGB := color.take 3
        lineWidth := width
        lifeTime := 0
        parentObjectUniqueId := ray_cast_result.objectId
        parentLinkIndex := ray_cast_result.linkIndex })

/-- The engine calls of `Paint.__init__`: debug lines only. -/
def Paint_engine_calls (engine : Engine) (ray_cast_result : RayCastResult)
    (material_properties : MaterialPropertiesUpdate) : List EngineCall :=
  (Paint_init engine ray_cast_result material_properties).map
    EngineCall.addUserDebugLine

/-! ## Concrete inputs used to witness the theorems -/

/-- A trivial engine: identity rotation, empty ray results, all frames at
the origin. -/
def sample_engine : Engine :=
  { getMatrixFromQuaternion := fun _ => 1
    rayTestBatch := fun _ _ => []
    getBasePositionAndOrientation := fun _ => (fun _ => 0, fun _ => 0)
    getLinkState := fun _ _ => (fun _ => 0, fun _ => 0) }

/-- A ray-cast result hitting the base of body `0` at the origin. -/
def sample_hit : RayCastResult := ⟨0, -1, 0, fun _ => 0⟩

/-- A `material_properties` argument that overrides nothing. -/
def no_update : MaterialPropertiesUpdate := ⟨none, none⟩

end

/-- A one-joint URDF: a revolute joint `q1` with limits `[-1, 1]`. -/
def sample_urdf : List JointInfo := [⟨"q1", 0, -1, 1⟩]

/-- A joint-position target naming a joint the robot does not have. -/
def bad_target : List (String × ℚ) := [("nonexistent_joint", 0)]

/-! ## Helper lemmas -/

lemma extrude_foldl_eq {Particle : Type} (material : RayCastResult → Particle)
    (l : List RayCastResult) (acc : List Particle) :
    l.foldl
      (fun particle_list ray_intersection =>
        if ray_intersection.objectId ≠ -1
        then particle_list ++ [material ray_intersection]
        else particle_list) acc
      = acc ++ (l.filter (fun r => r.objectId ≠ -1)).map material := by
  induction l generalizing acc with
  | nil => simp
  | cons r rest ih =>
    rw [List.foldl_cons]
    by_cases h : r.objectId = -1
    · rw [if_neg (not_not_intro h), ih, List.filter_cons]
      simp [h]
    · rw [if_pos h, ih, List.filter_cons]
      simp [h, List.append_assoc]

lemma Paint_remove_bodies (particle_ids : List ℤ) (scene : SimScene) :
    (Paint_remove particle_ids scene).bodies = scene.bodies := by
  induction particle_ids generalizing scene with
  | nil => rfl
  | cons id rest ih =>
    have h : Paint_remove (id :: rest) scene
        = Paint_remove rest (removeUserDebugItem scene id) := rfl
    rw [h]
    exact (ih (removeUserDebugItem scene id)).trans rfl

lemma Paint_remove_debugItems (particle_ids : List ℤ) (scene : SimScene) (d : ℤ) :
    d ∈ (Paint_remove particle_ids scene).debugItems ↔
      d ∈ scene.debugItems ∧ d ∉ particle_ids := by
  induction particle_ids generalizing scene with
  | nil => simp [Paint_remove]
  | cons id rest ih =>
    have h : Paint_remove (id :: rest) scene
        = Paint_remove rest (removeUserDebugItem scene id) := rfl
    rw [h, ih]
    have hd : (removeUserDebugItem scene id).debugItems
        = scene.debugItems.erase id := rfl
    rw [hd]
    simp only [Finset.mem_erase, List.mem_cons, not_or]
    tauto

lemma joint_state_shape_keys_subset (urdf : List JointInfo) (n : String) :
    n ∈ (robot_base_init urdf).joint_state_shape_keys →
      n ∈ all_joint_names urdf := by
  intro h
  simp only [robot_base_init, List.mem_map, List.mem_filter] at h
  obtain ⟨info, ⟨hmem, _⟩, rfl⟩ := h
  exact List.mem_map_of_mem JointInfo.name hmem

lemma paint_path_point_eq_offset (particle_size : ℝ) (adj : Fin 3 → ℝ) (i : ℕ) :
    paint_path_point particle_size adj i
      = adj + paint_spiral_offset particle_size i := by
  funext d
  fin_cases d <;>
    simp [paint_path_point, paint_spiral_offset, Pi.add_apply] <;> ring

/-! ## Claim theorems -/

/-- C1: `Extruder.extrude` walks the engine's ray-cast result list once and
spawns a material particle for exactly the results whose hit-object id is
not `-1`, in the order the results appear, returning the particle list;
misses produce no particle. -/
theorem extrude_spawns_exactly_hits {Particle : Type}
    (material : RayCastResult → Particle)
    (ray_cast_results : List RayCastResult) :
    extrude material ray_cast_results
      = (ray_cast_results.filter (fun r => r.objectId ≠ -1)).map material := by
  simpa [extrude] using extrude_foldl_eq material ray_cast_results []

/-- C2: each direction sampled by `sample_spherical` with opening angle
`a ∈ [0, π]` is a unit vector whose angle to the positive z axis is at most
`a/2` — all sampled directions lie in the cone of opening angle `a`. -/
theorem sample_spherical_unit_in_cone (opening_angle theta phi : ℝ)
    (hnn : 0 ≤ opening_angle) (hle : opening_angle ≤ Real.pi)
    (hlo : -(opening_angle / 2) ≤ theta) (hhi : theta ≤ opening_angle / 2) :
    Real.sqrt ((sample_spherical theta phi 0) ^ 2
        + (sample_spherical theta phi 1) ^ 2
        + (sample_spherical theta phi 2) ^ 2) = 1 ∧
    angle_to_z_axis (sample_spherical theta phi) ≤ opening_angle / 2 := by
  have hx : sample_spherical theta phi 0 = Real.sin theta * Real.cos phi := rfl
  have hy : sample_spherical theta phi 1 = Real.sin theta * Real.sin phi := rfl
  have hz : sample_spherical theta phi 2 = Real.cos theta := rfl
  have h1 := Real.sin_sq_add_cos_sq phi
  have h2 := Real.sin_sq_add_cos_sq theta
  have hsum : (sample_spherical theta phi 0) ^ 2
      + (sample_spherical theta phi 1) ^ 2
      + (sample_spherical theta phi 2) ^ 2 = 1 := by
    rw [hx, hy, hz]
    nlinarith [h1, h2]
  refine ⟨by rw [hsum, Real.sqrt_one], ?_⟩
  have habs : |theta| ≤ Real.pi := by
    rw [abs_le]
    constructor <;> nlinarith [Real.pi_pos]
  unfold angle_to_z_axis
  rw [hsum, Real.sqrt_one, div_one, hz, ← Real.cos_abs theta,
    Real.arccos_cos (abs_nonneg theta) habs]
  rw [abs_le]
  exact ⟨by linarith, hhi⟩

/-- C2 witness: the sample at `θ = 0`, `φ = 0` with opening angle `π`. -/
theorem sample_spherical_unit_in_cone_witness :
    ((0:ℝ) ≤ Real.pi ∧ Real.pi ≤ Real.pi
        ∧ -(Real.pi / 2) ≤ (0:ℝ) ∧ (0:ℝ) ≤ Real.pi / 2) ∧
    (Real.sqrt ((sample_spherical 0 0 0) ^ 2 + (sample_spherical 0 0 1) ^ 2
        + (sample_spherical 0 0 2) ^ 2) = 1 ∧
      angle_to_z_axis (sample_spherical 0 0) ≤ Real.pi / 2) :=
  ⟨⟨Real.pi_pos.le, le_rfl, by linarith [Real.pi_pos], by linarith [Real.pi_pos]⟩,
    sample_spherical_unit_in_cone Real.pi 0 0 Real.pi_pos.le le_rfl
      (by linarith [Real.pi_pos]) (by linarith [Real.pi_pos])⟩

/-- C3: `cast_rays` performs one batch ray test of exactly `numRays` rays;
every ray starts at the tool position and ends at the position minus
`rayLen` times the world-rotated sampled direction, and the engine's result
list is returned unchanged. -/
theorem cast_rays_single_batch (engine : Engine) (thetas phis : ℕ → ℝ)
    (position : Fin 3 → ℝ) (quat : Quat) (numRays : ℕ) (rayLen : ℝ) :
    (ray_from_list position numRays).length = numRays ∧
    (ray_to_list engine thetas phis position quat numRays rayLen).length
      = numRays ∧
    (∀ i : Fin numRays,
      (ray_from_list position numRays)[i.val]? = some position ∧
      (ray_to_list engine thetas phis position quat numRays rayLen)[i.val]? =
        some (position - rayLen •
          (engine.getMatrixFromQuaternion quat).mulVec
            (sample_spherical (thetas i.val) (phis i.val)))) ∧
    cast_rays engine thetas phis position quat numRays rayLen =
      engine.rayTestBatch (ray_from_list position numRays)
        (ray_to_list engine thetas phis position quat numRays rayLen) := by
  refine ⟨by simp [ray_from_list], by simp [ray_to_list],
    fun i => ⟨?_, ?_⟩, rfl⟩
  · simp [ray_from_list, List.getElem?_map, List.getElem?_range, i.isLt]
  · simp [ray_to_list, List.getElem?_map, List.getElem?_range, i.isLt]

/-- C4: every debug line of a `Paint` particle on a hit is parented to the
struck body and link, and its endpoints are the decal centre — the hit
position transformed into the struck base or link frame by the inverse of
that frame's rotation — plus an offset depending only on the particle
size. -/
theorem Paint_lines_parented_and_centred (engine : Engine)
    (ray_cast_result : RayCastResult)
    (material_properties : MaterialPropertiesUpdate)
    (h : ray_cast_result.objectId ≠ -1) :
    (∀ l ∈ Paint_init engine ray_cast_result material_properties,
        l.parentObjectUniqueId = ray_cast_result.objectId ∧
        l.parentLinkIndex = ray_cast_result.linkIndex) ∧
    adj_target_position engine ray_cast_result =
      (engine.getMatrixFromQuaternion
          (if ray_cast_result.linkIndex = -1
           then engine.getBasePositionAndOrientation ray_cast_result.objectId
           else engine.getLinkState ray_cast_result.objectId
             ray_cast_result.linkIndex).2)⁻¹.mulVec
        (ray_cast_result.hitPosition -
          (if ray_cast_result.linkIndex = -1
           then engine.getBasePositionAndOrientation ray_cast_result.objectId
           else engine.getLinkState ray_cast_result.objectId
             ray_cast_result.linkIndex).1) ∧
    (Paint_init engine ray_cast_result material_properties).map
        DebugLineSpec.lineFrom =
      [adj_target_position engine ray_cast_result + paint_spiral_offset
          (set_material_properties material_defaults
            material_properties).particleSize 1,
       adj_target_position engine ray_cast_result + paint_spiral_offset
          (set_material_properties material_defaults
            material_properties).particleSize 2] ∧
    (Paint_init engine ray_cast_result material_properties).map
        DebugLineSpec.lineTo =
      [adj_target_position engine ray_cast_result + paint_spiral_offset
          (set_material_properties material_defaults
            material_properties).particleSize 0,
       adj_target_position engine ray_cast_result + paint_spiral_offset
          (set_material_properties material_defaults
            material_properties).particleSize 1] := by
  refine ⟨?_, rfl, ?_, ?_⟩
  · intro l hl
    simp only [Paint_init, if_neg h, List.mem_map, paint_steps,
      List.range'] at hl
    obtain ⟨i, _, rfl⟩ := hl
    exact ⟨rfl, rfl⟩
  · have hr : List.range' 1 2 = [1, 2] := rfl
    simp [Paint_init, if_neg h, paint_steps, hr, paint_path_point_eq_offset]
  · have hr : List.range' 1 2 = [1, 2] := rfl
    simp [Paint_init, if_neg h, paint_steps, hr, paint_path_point_eq_offset]

/-- C4 witness: a hit on the base of body `0`. -/
theorem Paint_lines_parented_and_centred_witness :
    sample_hit.objectId ≠ -1 ∧
    ((∀ l ∈ Paint_init sample_engine sample_hit no_update,
        l.parentObjectUniqueId = sample_hit.objectId ∧
        l.parentLinkIndex = sample_hit.linkIndex) ∧
    adj_target_position sample_engine sample_hit =
      (sample_engine.getMatrixFromQuaternion
          (if sample_hit.linkIndex = -1
           then sample_engine.getBasePositionAndOrientation sample_hit.objectId
           else sample_engine.getLinkState sample_hit.objectId
             sample_hit.linkIndex).2)⁻¹.mulVec
        (sample_hit.hitPosition -
          (if sample_hit.linkIndex = -1
           then sample_engine.getBasePositionAndOrientation sample_hit.objectId
           else sample_engine.getLinkState sample_hit.objectId
             sample_hit.linkIndex).1) ∧
    (Paint_init sample_engine sample_hit no_update).map
        DebugLineSpec.lineFrom =
      [adj_target_position sample_engine sample_hit + paint_spiral_offset
          (set_material_properties material_defaults no_update).particleSize 1,
       adj_target_position sample_engine sample_hit + paint_spiral_offset
          (set_material_properties material_defaults no_update).particleSize 2] ∧
    (Paint_init sample_engine sample_hit no_update).map
        DebugLineSpec.lineTo =
      [adj_target_position sample_engine sample_hit + paint_spiral_offset
          (set_material_properties material_defaults no_update).particleSize 0,
       adj_target_position sample_engine sample_hit + paint_spiral_offset
          (set_material_properties material_defaults no_update).particleSize 1]) :=
  ⟨by decide,
    Paint_lines_parented_and_centred sample_engine sample_hit no_update
      (by decide)⟩

/-- C5 counterexample: `Plastic.__init__` passes `baseMass=0` to
`p.createMultiBody`, and a multibody with base mass `0` is fixed (static)
in the engine, so the Plastic particle is not spawned as a *dynamic*
multibody. -/
theorem Plastic_body_not_dynamic :
    (Plastic_init sample_hit no_update).baseMass = 0 ∧
    ¬ isDynamic (Plastic_init sample_hit no_update) :=
  ⟨rfl, by simp [isDynamic, Plastic_init]⟩

/-- C5 (amended): a `Paint` particle only issues debug-line calls (no mass,
no collision shape), while a `Plastic` particle is spawned as a single
zero-mass (static) multibody at the ray hit position with both a visual
sphere and a collision sphere of radius equal to the `'particle size'`
material property. -/
theorem material_particles_visual_or_static (engine : Engine)
    (ray_cast_result : RayCastResult)
    (material_properties : MaterialPropertiesUpdate) :
    (∀ c ∈ Paint_engine_calls engine ray_cast_result material_properties,
        ∃ l, c = EngineCall.addUserDebugLine l) ∧
    (Plastic_init ray_cast_result material_properties).baseMass = 0 ∧
    (Plastic_init ray_cast_result material_properties).basePosition
      = ray_cast_result.hitPosition ∧
    (Plastic_init ray_cast_result material_properties).baseCollisionShape
      = some ⟨(set_material_properties material_defaults
          material_properties).particleSize⟩ ∧
    (Plastic_init ray_cast_result material_properties).baseVisualShape
      = some ⟨(set_material_properties material_defaults
            material_properties).color,
          (set_material_properties material_defaults
            material_properties).particleSize⟩ := by
  refine ⟨?_, rfl, rfl, rfl, rfl⟩
  intro c hc
  simp only [Paint_engine_calls, List.mem_map] at hc
  obtain ⟨l, _, rfl⟩ := hc
  exact ⟨l, rfl⟩

/-- C6: `Plastic.remove` deletes exactly the one multibody the particle
created and no debug item; `Paint.remove` deletes exactly the debug lines
whose ids the particle stored and no body. -/
theorem particle_remove_exact (scene : SimScene) (particle_id : ℤ)
    (particle_ids : List ℤ) :
    ((∀ b : ℤ, b ∈ (Plastic_remove particle_id scene).bodies ↔
        b ∈ scene.bodies ∧ b ≠ particle_id) ∧
      (Plastic_remove particle_id scene).debugItems = scene.debugItems) ∧
    ((∀ d : ℤ, d ∈ (Paint_remove particle_ids scene).debugItems ↔
        d ∈ scene.debugItems ∧ d ∉ particle_ids) ∧
      (Paint_remove particle_ids scene).bodies = scene.bodies) := by
  refine ⟨⟨fun b => ?_, rfl⟩,
    ⟨fun d => Paint_remove_debugItems particle_ids scene d,
      Paint_remove_bodies particle_ids scene⟩⟩
  simp only [Plastic_remove, removeBody, Finset.mem_erase]
  tauto

/-- C7: if any key of the target dictionary is not a joint name of the
robot, `set_joint_position` raises `KeyError` before sending any motor
command, so no joint is commanded. -/
theorem set_joint_position_bad_key (urdf : List JointInfo)
    (target : List (String × ℚ)) (kv : String × ℚ)
    (hmem : kv ∈ target) (hbad : kv.1 ∉ all_joint_names urdf) :
    set_joint_position (robot_base_init urdf) target
      = ([], some PyErr.keyError) := by
  unfold set_joint_position
  rw [if_neg]
  intro hall
  rw [List.all_eq_true] at hall
  have hc := hall kv hmem
  have hmem2 : kv.1 ∈ (robot_base_init urdf).joint_state_shape_keys := by
    simpa using hc
  exact hbad (joint_state_shape_keys_subset urdf kv.1 hmem2)

/-- C7 witness: a target naming a joint absent from a one-joint robot. -/
theorem set_joint_position_bad_key_witness :
    (("nonexistent_joint", (0:ℚ)) ∈ bad_target ∧
      "nonexistent_joint" ∉ all_joint_names sample_urdf) ∧
    set_joint_position (robot_base_init sample_urdf) bad_target
      = ([], some PyErr.keyError) :=
  ⟨⟨by decide, by decide⟩,
    set_joint_position_bad_key sample_urdf bad_target
      ("nonexistent_joint", 0) (by decide) (by decide)⟩

/-- C8: after `RobotBase.__init__` every joint's stored limits satisfy
`lower ≤ upper`: the URDF limits are kept when ordered, and a joint whose
URDF upper limit is below its lower limit is stored as unlimited,
`(-inf, +inf)`. -/
theorem robot_joint_limits_ordered (urdf : List JointInfo) (j : ℕ)
    (info : JointInfo) (h : urdf[j]? = some info) :
    (robot_base_init urdf).lower_joint_limit[j]?
      = some (joint_limits info).1 ∧
    (robot_base_init urdf).upper_joint_limit[j]?
      = some (joint_limits info).2 ∧
    (joint_limits info).1 ≤ (joint_limits info).2 ∧
    (info.upperLimit < info.lowerLimit →
      joint_limits info = (XReal.negInf, XReal.posInf)) ∧
    (info.lowerLimit ≤ info.upperLimit →
      joint_limits info
        = (XReal.fin info.lowerLimit, XReal.fin info.upperLimit)) := by
  refine ⟨?_, ?_, ?_, ?_, ?_⟩
  · simp [robot_base_init, List.getElem?_map, h]
  · simp [robot_base_init, List.getElem?_map, h]
  · unfold joint_limits
    by_cases hc : info.upperLimit < info.lowerLimit
    · rw [if_pos hc]
      exact rfl
    · rw [if_neg hc]
      show XReal.ble (XReal.fin info.lowerLimit)
          (XReal.fin info.upperLimit) = true
      exact decide_eq_true (le_of_not_lt hc)
  · intro hc
    simp [joint_limits, hc]
  · intro hc
    simp [joint_limits, not_lt.mpr hc]

/-- C8 witness: a robot with one joint with URDF limits `[-1, 1]`. -/
theorem robot_joint_limits_ordered_witness :
    sample_urdf[0]? = some ⟨"q1", 0, -1, 1⟩ ∧
    ((robot_base_init sample_urdf).lower_joint_limit[0]?
        = some (joint_limits ⟨"q1", 0, -1, 1⟩).1 ∧
      (robot_base_init sample_urdf).upper_joint_limit[0]?
        = some (joint_limits ⟨"q1", 0, -1, 1⟩).2 ∧
      (joint_limits (⟨"q1", 0, -1, 1⟩ : JointInfo)).1
        ≤ (joint_limits (⟨"q1", 0, -1, 1⟩ : JointInfo)).2 ∧
      ((⟨"q1", 0, -1, 1⟩ : JointInfo).upperLimit
          < (⟨"q1", 0, -1, 1⟩ : JointInfo).lowerLimit →
        joint_limits ⟨"q1", 0, -1, 1⟩ = (XReal.negInf, XReal.posInf)) ∧
      ((⟨"q1", 0, -1, 1⟩ : JointInfo).lowerLimit
          ≤ (⟨"q1", 0, -1, 1⟩ : JointInfo).upperLimit →
        joint_limits ⟨"q1", 0, -1, 1⟩
          = (XReal.fin (-1), XReal.fin 1))) :=
  ⟨rfl, robot_joint_limits_ordered sample_urdf 0 ⟨"q1", 0, -1, 1⟩ rfl⟩

/-- C9: `ToolPath.translate` adds the vector componentwise to every path
position and changes nothing else: the path length, every orientation and
every tool activation are unchanged. -/
theorem ToolPath_translate_spec (tp : ToolPath) (vector : Fin 3 → ℚ) :
    (tp.translate vector).len = tp.len ∧
    (∀ d : Fin 3, ∀ j : ℕ,
      ((tp.translate vector).positions d)[j]?
        = ((tp.positions d)[j]?).map (fun x => x + vector d)) ∧
    (∀ d : Fin 3, ((tp.translate vector).positions d).length
        = (tp.positions d).length) ∧
    (tp.translate vector).orientations = tp.orientations ∧
    (tp.translate vector).tool_activations = tp.tool_activations := by
  refine ⟨?_, fun d j => ?_, fun d => ?_, rfl, rfl⟩
  · simp [ToolPath.translate, ToolPath.len]
  · simp [ToolPath.translate, List.getElem?_map]
  · simp [ToolPath.translate]

end PybulletIndustrial
